import Mathlib

/-!
# Verification of the WaterLogging incident-validation pipeline

Shallow embedding of the validation service (`backend/services/validation.js`,
exposed through `POST /api/incidents`) of the Delhi water-logging dashboard.

Conventions of the embedding:
* JavaScript numbers are modelled as exact rationals (`ℚ`); timestamps are the
  numeric value of a JS `Date` (milliseconds since the epoch).
* `Math.round` rounds half toward positive infinity, i.e. `⌊x + 1/2⌋`.
* Optional / possibly-`null` values are modelled as `Option`.
* JS truthiness tests on numbers (`x` is falsy iff `x = 0` or absent) and on
  strings (falsy iff empty or absent) are embedded explicitly at the places
  the source performs them.
* The two `new Date()` calls of `validateTimestamp` are modelled as a single
  reference instant `now`, passed as a parameter.
* The transcendental `calculateDistance` (haversine) is embedded over `ℝ`;
  the branch logic of `validateLocation` is parametric in the distance
  function it calls, mirroring the call to `calculateDistance`.
-/

/-- JavaScript `Math.round`: round half toward positive infinity. -/
def jsRound (q : ℚ) : ℤ := ⌊q + 1/2⌋

/-- GPS block extracted from EXIF (`extractEXIF`): each coordinate may be
`null` (`convertGPSToDecimal` returns `null` on a missing coordinate). -/
structure GPSData where
  latitude : Option ℚ
  longitude : Option ℚ
  altitude : Option ℚ
deriving Repr, DecidableEq

/-- Pixel dimensions reported by the EXIF parser. -/
structure ImageSize where
  width : ℕ
  height : ℕ
deriving Repr, DecidableEq

/-- EXIF metadata object produced by `extractEXIF`; every part may be absent.
Timestamps are JS `Date` values in epoch milliseconds. -/
structure EXIFData where
  dateTime : Option ℚ
  dateTimeOriginal : Option ℚ
  gps : Option GPSData
  imageSize : Option ImageSize
deriving Repr, DecidableEq

/-- The uploaded file as seen by the validator (`req.file`). -/
structure FileUpload where
  size : ℕ
  mimetype : String
deriving Repr, DecidableEq

/-- Device GPS parsed from the request body in `POST /api/incidents`. -/
structure UserGPS where
  latitude : ℚ
  longitude : ℚ
  accuracy : Option ℚ
deriving Repr, DecidableEq

/-- Result record of `validateTimestamp`. -/
structure TimestampResult where
  passed : Bool
  message : String
  exifDateTime : Option ℚ
  uploadDateTime : ℚ
  hoursDifference : Option ℚ
deriving Repr, DecidableEq

/-- Result record of `validateQuality`. -/
structure QualityResult where
  passed : Bool
  message : String
  resolution : String
  fileSize : ℕ
  format : String
deriving Repr, DecidableEq

/-- Result record of `validateLocation`. -/
structure LocationResult where
  passed : Bool
  message : String
  exifGpsMatch : Bool
  distanceFromWard : Option ℤ
deriving Repr, DecidableEq

/-- Result record of `validateAIGenerated`. -/
structure AIResult where
  passed : Bool
  confidence : ℤ
  message : String
  apiResponse : Option String
deriving Repr, DecidableEq

/-- Source `validateTimestamp(exifData)`: checks that the photo was taken recently.
`now` models the `new Date()` reference instant.  The photo timestamp is
`exifData.dateTimeOriginal || exifData.dateTime` (a JS `Date` is always
truthy, so `||` is exactly `Option.orElse`). -/
def validateTimestamp (now : ℚ) (exifData : Option EXIFData) : TimestampResult :=
  let noTs : TimestampResult :=
    { passed := false
      message := "⚠️ No timestamp found in photo metadata"
      exifDateTime := none
      uploadDateTime := now
      hoursDifference := none }
  match exifData with
  | none => noTs
  | some e =>
    match e.dateTimeOriginal.orElse (fun _ => e.dateTime) with
    | none => noTs
    | some photoDateTime =>
      let diffMs := now - photoDateTime
      let diffHours := diffMs / (1000 * 60 * 60)
      let hoursDifference : ℚ := (jsRound (diffHours * 10) : ℚ) / 10
      if diffHours < 0 then
        { passed := false
          message := "⚠️ Photo timestamp is in the future - possible clock issue"
          exifDateTime := some photoDateTime
          uploadDateTime := now
          hoursDifference := some hoursDifference }
      else if diffHours ≤ 24 then
        { passed := true
          message := "✓ Timestamp verified - Photo taken within 24 hours"
          exifDateTime := some photoDateTime
          uploadDateTime := now
          hoursDifference := some hoursDifference }
      else if diffHours ≤ 48 then
        { passed := true
          message := "⚠️ Photo is 1-2 days old - acceptable but verify"
          exifDateTime := some photoDateTime
          uploadDateTime := now
          hoursDifference := some hoursDifference }
      else
        { passed := false
          message := "❌ Photo is " ++ toString (jsRound (diffHours / 24)) ++ " days old - too old"
          exifDateTime := some photoDateTime
          uploadDateTime := now
          hoursDifference := some hoursDifference }

/-- Tail of `validateQuality`: the file-format check, reached when neither the
size checks nor the resolution check returned early.  `resolution` is whatever
`result.resolution` holds at that point. -/
def formatCheck (file : FileUpload) (resolution : String) : QualityResult :=
  let allowedFormats := ["image/jpeg", "image/jpg", "image/png"]
  if allowedFormats.contains file.mimetype then
    { passed := true
      message := "✓ Image quality acceptable"
      resolution := resolution
      fileSize := file.size
      format := file.mimetype }
  else
    { passed := false
      message := "❌ Invalid format - only JPEG/PNG allowed"
      resolution := resolution
      fileSize := file.size
      format := file.mimetype }

/-- Source `validateQuality(file, exifData)`: size bounds, then resolution (when EXIF
reports one), then format. -/
def validateQuality (file : FileUpload) (exifData : Option EXIFData) : QualityResult :=
  let minSize := 50 * 1024
  let maxSize := 10 * 1024 * 1024
  if file.size < minSize then
    { passed := false
      message := "⚠️ File size very small - low quality image"
      resolution := ""
      fileSize := file.size
      format := file.mimetype }
  else if maxSize < file.size then
    { passed := false
      message := "⚠️ File size too large - please compress"
      resolution := ""
      fileSize := file.size
      format := file.mimetype }
  else
    match exifData with
    | some e =>
      match e.imageSize with
      | some isz =>
        let resolution := toString isz.width ++ "x" ++ toString isz.height
        let minResolution := 640 * 480
        if isz.width * isz.height < minResolution then
          { passed := false
            message := "⚠️ Low resolution (" ++ resolution ++ ") - minimum 640x480"
            resolution := resolution
            fileSize := file.size
            format := file.mimetype }
        else
          formatCheck file resolution
      | none => formatCheck file ""
    | none => formatCheck file ""

/-- The guard `exifData && exifData.gps && exifData.gps.latitude &&
exifData.gps.longitude` of `validateLocation`, together with the coordinate
reads that follow it.  These are JS truthiness tests: a coordinate equal to
`0` is falsy, so it is treated exactly like an absent one. -/
def exifGPSCoords : Option EXIFData → Option (ℚ × ℚ)
  | none => none
  | some e =>
    match e.gps with
    | none => none
    | some g =>
      match g.latitude, g.longitude with
      | some lat, some lon => if lat ≠ 0 ∧ lon ≠ 0 then some (lat, lon) else none
      | _, _ => none

/-- The guard `userGPS && userGPS.latitude && userGPS.longitude` of
`validateLocation` (JS truthiness: a `0` coordinate is falsy). -/
def userGPSCoords : Option UserGPS → Option (ℚ × ℚ)
  | none => none
  | some u => if u.latitude ≠ 0 ∧ u.longitude ≠ 0 then some (u.latitude, u.longitude) else none

/-- The guard `else if (ward)`: a ward string is truthy iff nonempty. -/
def wardTruthy : Option String → Bool
  | none => false
  | some w => w != ""

/-- Source `validateLocation(exifData, userGPS, ward)`.  `dist` stands for the call
to `calculateDistance` (embedded separately over `ℝ`); the branch logic is
otherwise exactly the source's. -/
def validateLocation (dist : ℚ → ℚ → ℚ → ℚ → ℚ) (exifData : Option EXIFData)
    (userGPS : Option UserGPS) (ward : Option String) : LocationResult :=
  match exifGPSCoords exifData, userGPSCoords userGPS with
  | some (elat, elon), some (ulat, ulon) =>
    let distance := dist elat elon ulat ulon
    if distance < 500 then
      { passed := true
        message := "✓ GPS coordinates verified - EXIF matches user location"
        exifGpsMatch := true
        distanceFromWard := some (jsRound distance) }
    else if distance < 2000 then
      { passed := true
        message := "⚠️ EXIF GPS differs from user location by " ++ toString (jsRound distance) ++ "m"
        exifGpsMatch := false
        distanceFromWard := some (jsRound distance) }
    else
      { passed := false
        message := "❌ EXIF GPS far from user location (" ++ toString (jsRound distance) ++ "m) - suspicious"
        exifGpsMatch := false
        distanceFromWard := some (jsRound distance) }
  | none, some _ =>
    { passed := true
      message := "⚠️ GPS captured but no EXIF GPS - acceptable"
      exifGpsMatch := false
      distanceFromWard := none }
  | _, _ =>
    if wardTruthy ward then
      { passed := true
        message := "⚠️ Ward selected but GPS recommended for better accuracy"
        exifGpsMatch := false
        distanceFromWard := none }
    else
      { passed := false
        message := "❌ No location data provided"
        exifGpsMatch := false
        distanceFromWard := none }

/-- Source `validateAIGenerated(file)`.  `aiDetectionEnv` models
`process.env.AI_DETECTION_ENABLED`; `rand` models `Math.random()` (a draw in
`[0,1)`).  In the enabled branch the source's API integration is commented
out, so the function falls through to the default result. -/
def validateAIGenerated (aiDetectionEnv : Option String) (rand : ℚ) : AIResult :=
  let aiEnabled := aiDetectionEnv == some "true"
  if !aiEnabled then
    let randomConfidence := (0.85 : ℚ) + rand * 0.15
    { passed := true
      confidence := jsRound (randomConfidence * 100)
      message := "✓ Real photo detected (simulated)"
      apiResponse := none }
  else
    { passed := true
      confidence := 0
      message := ""
      apiResponse := none }

/-- Modelled from the spec: the enabled-mode external-classifier integration
is missing from the source (`validateAIGenerated` only carries it as a
commented-out reference snippet and a TODO).  Per the spec contract the check
interprets the classifier's AI-generated probability `p`: pass iff `p < 0.5`,
`confidence = round((1 - p) * 100)`; on external-call failure it passes with a
warning message (fail-open).  `apiCall` is the outcome of the external call. -/
def validateAIGeneratedEnabledContract (apiCall : Except String ℚ) : AIResult :=
  match apiCall with
  | .ok aiScore =>
    { passed := decide (aiScore < (0.5 : ℚ))
      confidence := jsRound ((1 - aiScore) * 100)
      message := if aiScore < (0.5 : ℚ) then "✓ Real photo detected" else "❌ Possible AI-generated image"
      apiResponse := some "response" }
  | .error _ =>
    { passed := true
      confidence := 0
      message := "⚠️ AI detection unavailable, skipping check"
      apiResponse := none }

/-- The `overallScore` aggregation of `POST /api/incidents` (identical to
`calculateValidationScore` on the incident schema): percentage of defined
checks that passed, rounded, `0` when no check is defined. -/
def overallScore (checks : List (Option Bool)) : ℤ :=
  let passedChecks := (checks.filter (fun check => check == some true)).length
  let totalChecks := (checks.filter (fun check => check != none)).length
  if totalChecks = 0 then 0
  else jsRound (((passedChecks : ℚ) / (totalChecks : ℚ)) * 100)

/-- Spec-side counter: checks whose `passed` field is a boolean. -/
def countDefined (checks : List (Option Bool)) : ℕ := checks.countP (fun c => c.isSome)

/-- Spec-side counter: checks whose `passed` field is `true`. -/
def countPassed (checks : List (Option Bool)) : ℕ := checks.count (some true)

/-- EXIF metadata whose GPS block is present but has latitude `0` (a point on
the equator): the concrete input of C8. -/
def exifAtEquator : EXIFData :=
  { dateTime := none
    dateTimeOriginal := none
    gps := some { latitude := some 0, longitude := some (77.209 : ℚ), altitude := none }
    imageSize := none }

/-- Device GPS reading at latitude `0`: the concrete input of C8. -/
def userAtEquator : UserGPS :=
  { latitude := 0, longitude := (77.209 : ℚ), accuracy := none }

open Classical in
/-- JavaScript `Math.atan2(y, x)` for real arguments. -/
noncomputable def atan2 (y x : ℝ) : ℝ :=
  if 0 < x then Real.arctan (y / x)
  else if x < 0 ∧ 0 ≤ y then Real.arctan (y / x) + Real.pi
  else if x < 0 then Real.arctan (y / x) - Real.pi
  else if 0 < y then Real.pi / 2
  else if y < 0 then -(Real.pi / 2)
  else 0

/-- `calculateDistance(lat1, lon1, lat2, lon2)`: the source's haversine
implementation (Earth radius `6371e3` m), embedded over `ℝ`. -/
noncomputable def calculateDistance (lat1 lon1 lat2 lon2 : ℝ) : ℝ :=
  let R : ℝ := 6371e3
  let φ1 := lat1 * Real.pi / 180
  let φ2 := lat2 * Real.pi / 180
  let dphi := (lat2 - lat1) * Real.pi / 180
  let dlam := (lon2 - lon1) * Real.pi / 180
  let a := Real.sin (dphi / 2) * Real.sin (dphi / 2) +
    Real.cos φ1 * Real.cos φ2 * Real.sin (dlam / 2) * Real.sin (dlam / 2)
  let c := 2 * atan2 (Real.sqrt a) (Real.sqrt (1 - a))
  R * c

/-- The haversine intermediate `a` of `calculateDistance`, as a standalone
function. -/
noncomputable def havA (lat1 lon1 lat2 lon2 : ℝ) : ℝ :=
  Real.sin ((lat2 - lat1) * Real.pi / 180 / 2) * Real.sin ((lat2 - lat1) * Real.pi / 180 / 2) +
    Real.cos (lat1 * Real.pi / 180) * Real.cos (lat2 * Real.pi / 180) *
      Real.sin ((lon2 - lon1) * Real.pi / 180 / 2) * Real.sin ((lon2 - lon1) * Real.pi / 180 / 2)

/-- The standard haversine great-circle distance with Earth radius
`6 371 000` m, written as the spec states it (`dphi = φ2 − φ1`,
`a = sin²(dphi/2) + cos φ1 · cos φ2 · sin²(dlam/2)`, `d = 2R·arcsin √a`): the
reference formula the source implementation must match. -/
noncomputable def haversineStandard (lat1 lon1 lat2 lon2 : ℝ) : ℝ :=
  let R : ℝ := 6371000
  let φ1 := lat1 * Real.pi / 180
  let φ2 := lat2 * Real.pi / 180
  let a := Real.sin ((φ2 - φ1) / 2) ^ 2 +
    Real.cos φ1 * Real.cos φ2 * Real.sin ((lon2 * Real.pi / 180 - lon1 * Real.pi / 180) / 2) ^ 2
  2 * R * Real.arcsin (Real.sqrt a)

/-- The aggregation formula, for any list of check results. -/
lemma overallScore_spec (l : List (Option Bool)) :
    overallScore l =
      if countDefined l = 0 then 0
      else jsRound (100 * (countPassed l : ℚ) / (countDefined l : ℚ)) := by
  have hpred : (fun (c : Option Bool) => c != none) = (fun c : Option Bool => c.isSome) := by
    funext c; cases c <;> rfl
  have h1 : (l.filter (fun check => check == some true)).length = countPassed l := by
    simp [countPassed, List.count, List.countP_eq_length_filter]
  have h2 : (l.filter (fun check => check != none)).length = countDefined l := by
    simp [countDefined, List.countP_eq_length_filter, hpred]
  unfold overallScore
  dsimp only
  rw [h1, h2]
  split
  · rfl
  · exact congrArg jsRound (by ring)

/-- C1.  Score aggregation: for every list of four check results,
`overallScore` equals `round(100 * passedCount / definedCount)` where
`definedCount` counts checks whose `passed` field is a boolean and
`passedCount` those equal to `true`; the score is `0` when `definedCount` is
`0`; and the three concrete examples of the spec hold. -/
theorem C1_score_aggregation (a b c d : Option Bool) :
    (overallScore [a, b, c, d] =
      if countDefined [a, b, c, d] = 0 then 0
      else jsRound (100 * (countPassed [a, b, c, d] : ℚ) / (countDefined [a, b, c, d] : ℚ))) ∧
    overallScore [some true, some false, some true, some true] = 75 ∧
    overallScore [some false, some false, some false, some false] = 0 ∧
    overallScore [some true, some true, some true, some true] = 100 := by
  refine ⟨overallScore_spec _, ?_, ?_, ?_⟩ <;>
    rw [overallScore_spec] <;>
    norm_num [countDefined, countPassed, jsRound, List.count, List.countP, List.countP.go]

/-- C2.  Timestamp freshness: with the photo timestamp `t` resolved as
`dateTimeOriginal || dateTime` and `h = (now - t)` in hours: `h < 0` fails
(future timestamp); `0 ≤ h ≤ 24` passes; `24 < h ≤ 48` passes flagged for
manual review; `h > 48` fails reporting the age in whole days.  Every result
records the resolved timestamp, the reference `now`, and `h` rounded to one
decimal place. -/
theorem C2_timestamp_freshness (now t : ℚ) (e : EXIFData)
    (ht : e.dateTimeOriginal.orElse (fun _ => e.dateTime) = some t) :
    ((now - t) / (1000 * 60 * 60) < 0 →
      validateTimestamp now (some e) =
        { passed := false
          message := "⚠️ Photo timestamp is in the future - possible clock issue"
          exifDateTime := some t
          uploadDateTime := now
          hoursDifference := some ((jsRound ((now - t) / (1000 * 60 * 60) * 10) : ℚ) / 10) }) ∧
    (0 ≤ (now - t) / (1000 * 60 * 60) → (now - t) / (1000 * 60 * 60) ≤ 24 →
      validateTimestamp now (some e) =
        { passed := true
          message := "✓ Timestamp verified - Photo taken within 24 hours"
          exifDateTime := some t
          uploadDateTime := now
          hoursDifference := some ((jsRound ((now - t) / (1000 * 60 * 60) * 10) : ℚ) / 10) }) ∧
    (24 < (now - t) / (1000 * 60 * 60) → (now - t) / (1000 * 60 * 60) ≤ 48 →
      validateTimestamp now (some e) =
        { passed := true
          message := "⚠️ Photo is 1-2 days old - acceptable but verify"
          exifDateTime := some t
          uploadDateTime := now
          hoursDifference := some ((jsRound ((now - t) / (1000 * 60 * 60) * 10) : ℚ) / 10) }) ∧
    (48 < (now - t) / (1000 * 60 * 60) →
      validateTimestamp now (some e) =
        { passed := false
          message := "❌ Photo is " ++ toString (jsRound ((now - t) / (1000 * 60 * 60) / 24)) ++ " days old - too old"
          exifDateTime := some t
          uploadDateTime := now
          hoursDifference := some ((jsRound ((now - t) / (1000 * 60 * 60) * 10) : ℚ) / 10) }) := by
  unfold validateTimestamp
  dsimp only
  rw [ht]
  dsimp only
  refine ⟨fun h0 => ?_, fun h0 h24 => ?_, fun h24 h48 => ?_, fun h48 => ?_⟩ <;>
    split_ifs <;> first | rfl | (exfalso; linarith)

/-- Witness for C2 at a concrete input: photo taken at epoch `0`, now 25 hours
later, lands in the flagged 24–48 hour band and still passes. -/
theorem C2_timestamp_freshness_witness :
    (validateTimestamp 90000000 (some { dateTime := none, dateTimeOriginal := some 0, gps := none, imageSize := none })).passed = true ∧
    (validateTimestamp 90000000 (some { dateTime := none, dateTimeOriginal := some 0, gps := none, imageSize := none })).message = "⚠️ Photo is 1-2 days old - acceptable but verify" := by
  have h := (C2_timestamp_freshness 90000000 0
    { dateTime := none, dateTimeOriginal := some 0, gps := none, imageSize := none } rfl).2.2.1
    (by norm_num) (by norm_num)
  rw [h]
  exact ⟨rfl, rfl⟩

/-- C9.  Expected absence never raises: every check returns a defined result
on absent inputs.  Absent metadata (extraction failure) and metadata without
any timestamp produce the identical "no timestamp found" failure; absent
location data produces the "no location data" failure; quality on absent EXIF
is decided by size and format alone; the authenticity stub always produces a
defined (passing) result. -/
theorem C9_absence_is_handled :
    (∀ now : ℚ, validateTimestamp now none =
      { passed := false
        message := "⚠️ No timestamp found in photo metadata"
        exifDateTime := none
        uploadDateTime := now
        hoursDifference := none }) ∧
    (∀ (now : ℚ) (g : Option GPSData) (s : Option ImageSize),
      validateTimestamp now (some { dateTime := none, dateTimeOriginal := none, gps := g, imageSize := s }) =
      { passed := false
        message := "⚠️ No timestamp found in photo metadata"
        exifDateTime := none
        uploadDateTime := now
        hoursDifference := none }) ∧
    (∀ dist : ℚ → ℚ → ℚ → ℚ → ℚ, validateLocation dist none none none =
      { passed := false
        message := "❌ No location data provided"
        exifGpsMatch := false
        distanceFromWard := none }) ∧
    (∀ f : FileUpload,
      (validateQuality f none).passed = true ↔
        (50 * 1024 ≤ f.size ∧ f.size ≤ 10 * 1024 * 1024 ∧
          f.mimetype ∈ ["image/jpeg", "image/jpg", "image/png"])) ∧
    (∀ (env : Option String) (r : ℚ), (validateAIGenerated env r).passed = true) := by
  refine ⟨fun now => rfl, fun now g s => rfl, fun dist => rfl, fun f => ?_, fun env r => ?_⟩
  · unfold validateQuality formatCheck
    dsimp only
    split_ifs with hsmall hlarge hfmt
    · constructor
      · intro h; cases h
      · intro ⟨hmin, hmax, _⟩; omega
    · constructor
      · intro h; cases h
      · intro ⟨hmin, hmax, _⟩; omega
    · simp only [List.contains, List.elem_eq_mem, decide_eq_true_eq] at hfmt
      simp only [true_iff]
      exact ⟨by omega, by omega, hfmt⟩
    · simp only [List.contains, List.elem_eq_mem, decide_eq_true_eq] at hfmt
      simp only [false_iff]
      intro ⟨hmin, hmax, hmem⟩
      exact hfmt hmem
  · unfold validateAIGenerated
    dsimp only
    split_ifs <;> rfl

/-- C3.  Location consistency: exactly one of four prioritized branches
applies.  (1) both EXIF GPS and device GPS present (in the source's sense):
distance `< 500` passes with `exifGpsMatch`; `500 ≤ d < 2000` passes flagged
with `exifGpsMatch = false`; `d ≥ 2000` fails; (2) device GPS only: pass;
(3) no GPS but a truthy ward: pass with the "GPS recommended" flag;
(4) nothing: fail.  The four guards (both present / user only / no user GPS
with ward / no user GPS without ward) are mutually exclusive and exhaustive. -/
theorem C3_location_branches (dist : ℚ → ℚ → ℚ → ℚ → ℚ) (e : Option EXIFData)
    (u : Option UserGPS) (w : Option String) :
    (∀ ec uc, exifGPSCoords e = some ec → userGPSCoords u = some uc →
      (dist ec.1 ec.2 uc.1 uc.2 < 500 →
        validateLocation dist e u w =
          { passed := true
            message := "✓ GPS coordinates verified - EXIF matches user location"
            exifGpsMatch := true
            distanceFromWard := some (jsRound (dist ec.1 ec.2 uc.1 uc.2)) }) ∧
      (500 ≤ dist ec.1 ec.2 uc.1 uc.2 → dist ec.1 ec.2 uc.1 uc.2 < 2000 →
        validateLocation dist e u w =
          { passed := true
            message := "⚠️ EXIF GPS differs from user location by " ++ toString (jsRound (dist ec.1 ec.2 uc.1 uc.2)) ++ "m"
            exifGpsMatch := false
            distanceFromWard := some (jsRound (dist ec.1 ec.2 uc.1 uc.2)) }) ∧
      (2000 ≤ dist ec.1 ec.2 uc.1 uc.2 →
        validateLocation dist e u w =
          { passed := false
            message := "❌ EXIF GPS far from user location (" ++ toString (jsRound (dist ec.1 ec.2 uc.1 uc.2)) ++ "m) - suspicious"
            exifGpsMatch := false
            distanceFromWard := some (jsRound (dist ec.1 ec.2 uc.1 uc.2)) })) ∧
    (exifGPSCoords e = none → ∀ uc, userGPSCoords u = some uc →
      validateLocation dist e u w =
        { passed := true
          message := "⚠️ GPS captured but no EXIF GPS - acceptable"
          exifGpsMatch := false
          distanceFromWard := none }) ∧
    (userGPSCoords u = none → wardTruthy w = true →
      validateLocation dist e u w =
        { passed := true
          message := "⚠️ Ward selected but GPS recommended for better accuracy"
          exifGpsMatch := false
          distanceFromWard := none }) ∧
    (userGPSCoords u = none → wardTruthy w = false →
      validateLocation dist e u w =
        { passed := false
          message := "❌ No location data provided"
          exifGpsMatch := false
          distanceFromWard := none }) := by
  refine ⟨fun ec uc hec huc => ?_, fun hec uc huc => ?_, fun huc hw => ?_, fun huc hw => ?_⟩
  · obtain ⟨elat, elon⟩ := ec
    obtain ⟨ulat, ulon⟩ := uc
    refine ⟨fun h500 => ?_, fun h500 h2000 => ?_, fun h2000 => ?_⟩ <;>
      · unfold validateLocation
        rw [hec, huc]
        dsimp only
        split_ifs <;> first | rfl | (exfalso; linarith)
  · unfold validateLocation
    rw [hec, huc]
  · unfold validateLocation
    rw [huc, hw]
    cases hE : exifGPSCoords e <;> simp
  · unfold validateLocation
    rw [huc, hw]
    cases hE : exifGPSCoords e <;> simp

/-- Witness for C3 at a concrete input: EXIF GPS and device GPS both present,
distance 700 m, lands in the flagged pass band. -/
theorem C3_location_branches_witness :
    validateLocation (fun _ _ _ _ => 700)
      (some { dateTime := none, dateTimeOriginal := none
              gps := some { latitude := some 28, longitude := some 77, altitude := none }
              imageSize := none })
      (some { latitude := 28, longitude := 77, accuracy := none }) (some "Rohini") =
      { passed := true
        message := "⚠️ EXIF GPS differs from user location by " ++ toString (jsRound (700 : ℚ)) ++ "m"
        exifGpsMatch := false
        distanceFromWard := some (jsRound (700 : ℚ)) } := by
  exact ((C3_location_branches (fun _ _ _ _ => 700)
    (some { dateTime := none, dateTimeOriginal := none
            gps := some { latitude := some 28, longitude := some 77, altitude := none }
            imageSize := none })
    (some { latitude := 28, longitude := 77, accuracy := none }) (some "Rohini")).1
    (28, 77) (28, 77) (by norm_num [exifGPSCoords]) (by norm_num [userGPSCoords])).2.1
    (by norm_num) (by norm_num)

/-- C10.  `exifGpsMatch` is true exactly when both GPS readings pass the
source's presence guard and their distance is strictly below 500 m;
`distanceFromWard` is the rounded EXIF-to-device distance when both readings
are present and `null` otherwise.  Neither field depends on the declared
ward (the right-hand sides never mention `w`). -/
theorem C10_exifGpsMatch_characterization (dist : ℚ → ℚ → ℚ → ℚ → ℚ)
    (e : Option EXIFData) (u : Option UserGPS) (w : Option String) :
    ((validateLocation dist e u w).exifGpsMatch = true ↔
      ∃ ec uc, exifGPSCoords e = some ec ∧ userGPSCoords u = some uc ∧
        dist ec.1 ec.2 uc.1 uc.2 < 500) ∧
    ((validateLocation dist e u w).distanceFromWard =
      match exifGPSCoords e, userGPSCoords u with
      | some ec, some uc => some (jsRound (dist ec.1 ec.2 uc.1 uc.2))
      | _, _ => none) := by
  unfold validateLocation
  cases hE : exifGPSCoords e with
  | some ec =>
    obtain ⟨elat, elon⟩ := ec
    cases hU : userGPSCoords u with
    | some uc =>
      obtain ⟨ulat, ulon⟩ := uc
      dsimp only
      constructor
      · split_ifs with h1 h2
        · simp only [true_iff]
          exact ⟨(elat, elon), (ulat, ulon), rfl, rfl, h1⟩
        · simp only [Bool.false_eq_true, false_iff]
          rintro ⟨ec, uc, hec, huc, hlt⟩
          cases hec; cases huc; exact h1 hlt
        · simp only [Bool.false_eq_true, false_iff]
          rintro ⟨ec, uc, hec, huc, hlt⟩
          cases hec; cases huc; exact h1 hlt
      · split_ifs <;> rfl
    | none =>
      dsimp only
      constructor
      · split_ifs <;>
        · simp only [Bool.false_eq_true, false_iff]
          rintro ⟨ec, uc, hec, huc, hlt⟩
          exact huc
      · split_ifs <;> rfl
  | none =>
    cases hU : userGPSCoords u with
    | some uc =>
      dsimp only
      constructor
      · simp only [Bool.false_eq_true, false_iff]
        rintro ⟨ec, uc, hec, huc, hlt⟩
        cases hec
      · rfl
    | none =>
      dsimp only
      constructor
      · split_ifs <;>
        · simp only [Bool.false_eq_true, false_iff]
          rintro ⟨ec, uc, hec, huc, hlt⟩
          exact hec
      · split_ifs <;> rfl

/-- C8 (refuting evaluation).  The source's presence guards use JS
truthiness, so a GPS reading whose latitude is present with value `0` (a
point on the equator) is treated as absent: with EXIF GPS `(0, 77.209)` and
device GPS `(0, 77.209)` both present, the location check falls through to
the "no location data" failure branch instead of the branch-1 distance
comparison. -/
theorem C8_zero_coordinate_treated_as_absent :
    exifGPSCoords (some exifAtEquator) = none ∧
    userGPSCoords (some userAtEquator) = none ∧
    validateLocation (fun _ _ _ _ => 0) (some exifAtEquator) (some userAtEquator) none =
      { passed := false
        message := "❌ No location data provided"
        exifGpsMatch := false
        distanceFromWard := none } := by
  refine ⟨?_, ?_, ?_⟩ <;>
    norm_num [exifGPSCoords, userGPSCoords, validateLocation, wardTruthy,
      exifAtEquator, userAtEquator]

/-- Restatement of `formatCheck` through list membership instead of `contains`. -/
lemma formatCheck_spec (f : FileUpload) (res : String) :
    formatCheck f res =
      if f.mimetype ∈ ["image/jpeg", "image/jpg", "image/png"] then
        { passed := true
          message := "✓ Image quality acceptable"
          resolution := res
          fileSize := f.size
          format := f.mimetype }
      else
        { passed := false
          message := "❌ Invalid format - only JPEG/PNG allowed"
          resolution := res
          fileSize := f.size
          format := f.mimetype } := by
  unfold formatCheck
  by_cases h : f.mimetype ∈ ["image/jpeg", "image/jpg", "image/png"] <;>
    simp [List.contains, List.elem_eq_mem, h]

/-- C5.  Image quality: byte size below `50 * 1024` fails "too small"; above
`10 * 1024 * 1024` fails "too large"; otherwise a reported resolution below
`640 * 480` pixels fails with the actual WIDTHxHEIGHT; otherwise a MIME type
outside JPEG/PNG fails; otherwise pass.  The checks short-circuit in that
priority order: a 1 KiB `image/gif` reports the size failure. -/
theorem C5_image_quality (f : FileUpload) (e : Option EXIFData) :
    (f.size < 50 * 1024 →
      validateQuality f e =
        { passed := false
          message := "⚠️ File size very small - low quality image"
          resolution := ""
          fileSize := f.size
          format := f.mimetype }) ∧
    (50 * 1024 ≤ f.size → 10 * 1024 * 1024 < f.size →
      validateQuality f e =
        { passed := false
          message := "⚠️ File size too large - please compress"
          resolution := ""
          fileSize := f.size
          format := f.mimetype }) ∧
    (∀ ex isz, e = some ex → ex.imageSize = some isz →
      50 * 1024 ≤ f.size → f.size ≤ 10 * 1024 * 1024 →
      isz.width * isz.height < 640 * 480 →
      validateQuality f e =
        { passed := false
          message := "⚠️ Low resolution (" ++ (toString isz.width ++ "x" ++ toString isz.height) ++ ") - minimum 640x480"
          resolution := toString isz.width ++ "x" ++ toString isz.height
          fileSize := f.size
          format := f.mimetype }) ∧
    (50 * 1024 ≤ f.size → f.size ≤ 10 * 1024 * 1024 →
      (∀ ex isz, e = some ex → ex.imageSize = some isz → 640 * 480 ≤ isz.width * isz.height) →
      f.mimetype ∉ ["image/jpeg", "image/jpg", "image/png"] →
      (validateQuality f e).passed = false ∧
      (validateQuality f e).message = "❌ Invalid format - only JPEG/PNG allowed") ∧
    (50 * 1024 ≤ f.size → f.size ≤ 10 * 1024 * 1024 →
      (∀ ex isz, e = some ex → ex.imageSize = some isz → 640 * 480 ≤ isz.width * isz.height) →
      f.mimetype ∈ ["image/jpeg", "image/jpg", "image/png"] →
      (validateQuality f e).passed = true ∧
      (validateQuality f e).message = "✓ Image quality acceptable") ∧
    validateQuality { size := 1024, mimetype := "image/gif" } none =
      { passed := false
        message := "⚠️ File size very small - low quality image"
        resolution := ""
        fileSize := 1024
        format := "image/gif" } := by
  refine ⟨fun hsm => ?_, fun h1 h2 => ?_, fun ex isz he hisz h1 h2 hres => ?_,
    fun h1 h2 hres hfmt => ?_, fun h1 h2 hres hfmt => ?_, ?_⟩
  · unfold validateQuality
    dsimp only
    rw [if_pos hsm]
  · unfold validateQuality
    dsimp only
    rw [if_neg (by omega), if_pos h2]
  · subst he
    unfold validateQuality
    dsimp only
    rw [if_neg (by omega), if_neg (by omega), hisz]
    dsimp only
    rw [if_pos hres]
  · have hall : validateQuality f e = formatCheck f "" ∨
        ∃ isz : ImageSize, validateQuality f e = formatCheck f (toString isz.width ++ "x" ++ toString isz.height) := by
      unfold validateQuality
      dsimp only
      rw [if_neg (by omega), if_neg (by omega)]
      cases e with
      | none => exact Or.inl rfl
      | some ex =>
        dsimp only
        cases hisz : ex.imageSize with
        | none => exact Or.inl rfl
        | some isz =>
          dsimp only
          rw [if_neg (by have := hres ex isz rfl hisz; omega)]
          exact Or.inr ⟨isz, rfl⟩
    rcases hall with h | ⟨isz, h⟩ <;> rw [h, formatCheck_spec, if_neg hfmt] <;> exact ⟨rfl, rfl⟩
  · have hall : validateQuality f e = formatCheck f "" ∨
        ∃ isz : ImageSize, validateQuality f e = formatCheck f (toString isz.width ++ "x" ++ toString isz.height) := by
      unfold validateQuality
      dsimp only
      rw [if_neg (by omega), if_neg (by omega)]
      cases e with
      | none => exact Or.inl rfl
      | some ex =>
        dsimp only
        cases hisz : ex.imageSize with
        | none => exact Or.inl rfl
        | some isz =>
          dsimp only
          rw [if_neg (by have := hres ex isz rfl hisz; omega)]
          exact Or.inr ⟨isz, rfl⟩
    rcases hall with h | ⟨isz, h⟩ <;> rw [h, formatCheck_spec, if_pos hfmt] <;> exact ⟨rfl, rfl⟩
  · unfold validateQuality
    dsimp only
    rw [if_pos (by norm_num)]

/-- Witness for C5 at a concrete input: a 100 000-byte image whose EXIF
reports 100x100 pixels fails the resolution check. -/
theorem C5_image_quality_witness :
    validateQuality { size := 100000, mimetype := "image/jpeg" }
      (some { dateTime := none, dateTimeOriginal := none, gps := none,
              imageSize := some { width := 100, height := 100 } }) =
      { passed := false
        message := "⚠️ Low resolution (" ++ (toString (100 : ℕ) ++ "x" ++ toString (100 : ℕ)) ++ ") - minimum 640x480"
        resolution := toString (100 : ℕ) ++ "x" ++ toString (100 : ℕ)
        fileSize := 100000
        format := "image/jpeg" } := by
  exact (C5_image_quality { size := 100000, mimetype := "image/jpeg" }
    (some { dateTime := none, dateTimeOriginal := none, gps := none,
            imageSize := some { width := 100, height := 100 } })).2.2.1
    { dateTime := none, dateTimeOriginal := none, gps := none,
      imageSize := some { width := 100, height := 100 } }
    { width := 100, height := 100 } rfl rfl (by norm_num) (by norm_num) (by norm_num)

/-- C6.  Authenticity check with detection disabled (the default, i.e. the
environment flag is anything but the string "true"): always passes with the
simulated message, and the confidence lies in `[85, 100]` for every possible
value of the internal random draw in `[0, 1)`. -/
theorem C6_ai_disabled_mode (env : Option String) (r : ℚ)
    (henv : env ≠ some "true") (h0 : 0 ≤ r) (h1 : r < 1) :
    (validateAIGenerated env r).passed = true ∧
    (validateAIGenerated env r).message = "✓ Real photo detected (simulated)" ∧
    85 ≤ (validateAIGenerated env r).confidence ∧
    (validateAIGenerated env r).confidence ≤ 100 := by
  have hbeq : (env == some "true") = false := beq_eq_false_iff_ne.mpr henv
  unfold validateAIGenerated
  rw [hbeq]
  dsimp only
  rw [if_pos (show (!false) = true from rfl)]
  dsimp only
  refine ⟨rfl, rfl, ?_, ?_⟩
  · unfold jsRound
    rw [Int.le_floor]
    push_cast
    nlinarith
  · unfold jsRound
    have hlt : ⌊((0.85 : ℚ) + r * 0.15) * 100 + 1 / 2⌋ < 101 := by
      rw [Int.floor_lt]
      push_cast
      nlinarith
    omega

/-- Witness for C6 at the concrete draw `r = 1/2` with the flag unset. -/
theorem C6_ai_disabled_mode_witness :
    (validateAIGenerated none (1/2)).passed = true ∧
    (validateAIGenerated none (1/2)).message = "✓ Real photo detected (simulated)" ∧
    85 ≤ (validateAIGenerated none (1/2)).confidence ∧
    (validateAIGenerated none (1/2)).confidence ≤ 100 :=
  C6_ai_disabled_mode none (1/2) (by simp) (by norm_num) (by norm_num)

/-- C7.  Authenticity check with detection enabled, against the spec-modelled
contract (the integration itself is missing from the source): pass iff the
returned AI-generated probability is `< 0.5`, `confidence = round((1-p)*100)`,
and on external-call failure the check passes (fail-open), so `passed` is
always defined. -/
theorem C7_ai_enabled_contract (apiCall : Except String ℚ) :
    (∀ p, apiCall = .ok p →
      ((validateAIGeneratedEnabledContract apiCall).passed = true ↔ p < (0.5 : ℚ)) ∧
      (validateAIGeneratedEnabledContract apiCall).confidence = jsRound ((1 - p) * 100)) ∧
    (∀ msg, apiCall = .error msg →
      (validateAIGeneratedEnabledContract apiCall).passed = true) ∧
    ((validateAIGeneratedEnabledContract apiCall).passed = true ∨
      (validateAIGeneratedEnabledContract apiCall).passed = false) := by
  refine ⟨fun p hp => ?_, fun msg hmsg => ?_, ?_⟩
  · subst hp
    unfold validateAIGeneratedEnabledContract
    dsimp only
    exact ⟨decide_eq_true_iff, rfl⟩
  · subst hmsg
    rfl
  · cases h : (validateAIGeneratedEnabledContract apiCall).passed
    · exact Or.inr rfl
    · exact Or.inl rfl

/-- Witness for C7 at the concrete classifier outcome `p = 3/10`: the check
passes and reports confidence `round(70) = 70`. -/
theorem C7_ai_enabled_contract_witness :
    ((validateAIGeneratedEnabledContract (.ok (3/10))).passed = true ↔ (3/10 : ℚ) < (0.5 : ℚ)) ∧
    (validateAIGeneratedEnabledContract (.ok (3/10))).confidence = jsRound ((1 - 3/10) * 100) :=
  (C7_ai_enabled_contract (.ok (3/10))).1 (3/10) rfl

lemma calculateDistance_eq (lat1 lon1 lat2 lon2 : ℝ) :
    calculateDistance lat1 lon1 lat2 lon2 =
      6371e3 * (2 * atan2 (Real.sqrt (havA lat1 lon1 lat2 lon2))
        (Real.sqrt (1 - havA lat1 lon1 lat2 lon2))) := rfl

lemma atan2_sqrt_eq_arcsin {a : ℝ} (h0 : 0 ≤ a) (h1 : a ≤ 1) :
    atan2 (Real.sqrt a) (Real.sqrt (1 - a)) = Real.arcsin (Real.sqrt a) := by
  rcases eq_or_lt_of_le h1 with heq | hlt
  · subst heq
    rw [show (1:ℝ) - 1 = 0 from by norm_num, Real.sqrt_zero, Real.sqrt_one, Real.arcsin_one]
    unfold atan2
    norm_num
  · have hb : 0 < 1 - a := by linarith
    have hx : 0 < Real.sqrt (1 - a) := Real.sqrt_pos.mpr hb
    unfold atan2
    rw [if_pos hx, Real.arctan_eq_arcsin]
    congr 1
    have hsa : Real.sqrt a ^ 2 = a := Real.sq_sqrt h0
    have hsb : Real.sqrt (1 - a) ^ 2 = 1 - a := Real.sq_sqrt hb.le
    have ht2 : 1 + (Real.sqrt a / Real.sqrt (1 - a)) ^ 2 = (1 - a)⁻¹ := by
      rw [div_pow, hsa, hsb]
      field_simp
    rw [ht2, Real.sqrt_inv]
    field_simp

lemma sqrt_le_arcsin_sqrt {a : ℝ} (h1 : a ≤ 1) :
    Real.sqrt a ≤ Real.arcsin (Real.sqrt a) := by
  have hle : Real.sqrt a ≤ 1 := by
    rw [show (1:ℝ) = Real.sqrt 1 from Real.sqrt_one.symm]
    exact Real.sqrt_le_sqrt h1
  calc Real.sqrt a = Real.sin (Real.arcsin (Real.sqrt a)) :=
        (Real.sin_arcsin (by linarith [Real.sqrt_nonneg a]) hle).symm
    _ ≤ Real.arcsin (Real.sqrt a) :=
        Real.sin_le (Real.arcsin_nonneg.mpr (Real.sqrt_nonneg a))

lemma atan2_sqrt_le {a : ℝ} (h1 : a < 1) :
    atan2 (Real.sqrt a) (Real.sqrt (1 - a)) ≤ Real.sqrt a / Real.sqrt (1 - a) := by
  have hx : 0 < Real.sqrt (1 - a) := Real.sqrt_pos.mpr (by linarith)
  unfold atan2
  rw [if_pos hx]
  have htn : 0 ≤ Real.sqrt a / Real.sqrt (1 - a) :=
    div_nonneg (Real.sqrt_nonneg _) hx.le
  have h0' : 0 ≤ Real.arctan (Real.sqrt a / Real.sqrt (1 - a)) := by
    have := Real.arctan_strictMono.monotone htn
    rwa [Real.arctan_zero] at this
  calc Real.arctan (Real.sqrt a / Real.sqrt (1 - a))
      ≤ Real.tan (Real.arctan (Real.sqrt a / Real.sqrt (1 - a))) :=
        Real.le_tan h0' (Real.arctan_lt_pi_div_two _)
    _ = Real.sqrt a / Real.sqrt (1 - a) := Real.tan_arctan _

lemma phi_bounds {lat : ℝ} (h : |lat| ≤ 90) :
    -(Real.pi / 2) ≤ lat * Real.pi / 180 ∧ lat * Real.pi / 180 ≤ Real.pi / 2 := by
  obtain ⟨h1, h2⟩ := abs_le.mp h
  constructor <;> nlinarith [Real.pi_pos]

lemma cos_phi_nonneg {lat : ℝ} (h : |lat| ≤ 90) : 0 ≤ Real.cos (lat * Real.pi / 180) := by
  obtain ⟨h1, h2⟩ := phi_bounds h
  exact Real.cos_nonneg_of_mem_Icc ⟨h1, h2⟩

lemma havA_nonneg (lat1 lon1 lat2 lon2 : ℝ) (h1 : |lat1| ≤ 90) (h2 : |lat2| ≤ 90) :
    0 ≤ havA lat1 lon1 lat2 lon2 := by
  have hc1 := cos_phi_nonneg h1
  have hc2 := cos_phi_nonneg h2
  have hs1 := mul_self_nonneg (Real.sin ((lat2 - lat1) * Real.pi / 180 / 2))
  have hs2 := mul_self_nonneg (Real.sin ((lon2 - lon1) * Real.pi / 180 / 2))
  unfold havA
  nlinarith [mul_nonneg (mul_nonneg hc1 hc2) hs2]

lemma havA_le_one (lat1 lon1 lat2 lon2 : ℝ) (h1 : |lat1| ≤ 90) (h2 : |lat2| ≤ 90) :
    havA lat1 lon1 lat2 lon2 ≤ 1 := by
  have hc1 := cos_phi_nonneg h1
  have hc2 := cos_phi_nonneg h2
  set p1 := lat1 * Real.pi / 180 with hp1
  set p2 := lat2 * Real.pi / 180 with hp2
  set d := (lat2 - lat1) * Real.pi / 180 with hd
  -- sin (d/2) ^ 2 = (1 - cos d) / 2
  have hhalf : Real.sin (d / 2) * Real.sin (d / 2) = (1 - Real.cos d) / 2 := by
    have hc2m := Real.cos_two_mul (d / 2)
    rw [show 2 * (d / 2) = d from by ring] at hc2m
    have hpy := Real.sin_sq_add_cos_sq (d / 2)
    nlinarith
  -- cos p1 * cos p2 = (cos (p1 - p2) + cos (p1 + p2)) / 2, and p1 - p2 = -d
  have hprod : Real.cos p1 * Real.cos p2 = (Real.cos d + Real.cos (p1 + p2)) / 2 := by
    have hadd := Real.cos_add p1 p2
    have hsub := Real.cos_sub p1 p2
    have hpd : p1 - p2 = -d := by rw [hp1, hp2, hd]; ring
    rw [hpd, Real.cos_neg] at hsub
    linarith
  have hsin2 : Real.sin ((lon2 - lon1) * Real.pi / 180 / 2) *
      Real.sin ((lon2 - lon1) * Real.pi / 180 / 2) ≤ 1 := by
    have := Real.sin_sq_le_one ((lon2 - lon1) * Real.pi / 180 / 2)
    nlinarith [this]
  have hsin2n := mul_self_nonneg (Real.sin ((lon2 - lon1) * Real.pi / 180 / 2))
  have hcs : Real.cos (p1 + p2) ≤ 1 := Real.cos_le_one _
  unfold havA
  rw [← hp1, ← hp2, ← hd]
  nlinarith [mul_nonneg hc1 hc2,
    mul_le_mul_of_nonneg_left hsin2 (mul_nonneg hc1 hc2)]

/-- Quadratic-with-quartic-error lower bound on the cosine, obtained from the
cubic Taylor bound on the sine of the half angle. -/
lemma cos_double_ge (y : ℝ) (h0 : 0 ≤ y) (h1 : y ≤ 1) :
    1 - 2 * (y - y ^ 3 / 6 + y ^ 4 * (5 / 96)) ^ 2 ≤ Real.cos (2 * y) := by
  have hb := Real.sin_bound (x := y) (by rwa [abs_of_nonneg h0])
  rw [abs_of_nonneg h0] at hb
  have hsle : Real.sin y ≤ y - y ^ 3 / 6 + y ^ 4 * (5 / 96) := by
    have := (abs_le.mp hb).2
    linarith
  have hsnn : 0 ≤ Real.sin y :=
    Real.sin_nonneg_of_nonneg_of_le_pi h0 (by linarith [Real.pi_gt_three])
  have hsq : Real.sin y ^ 2 ≤ (y - y ^ 3 / 6 + y ^ 4 * (5 / 96)) ^ 2 :=
    pow_le_pow_left₀ hsnn hsle 2
  have hc2m := Real.cos_two_mul y
  have hpy := Real.sin_sq_add_cos_sq y
  nlinarith

/-- Monotonicity step: a cosine at an angle enclosed in `[0, r]`, `r ≤ 2`, is
at least the Taylor lower bound evaluated at `r`. -/
lemma cos_ge_of_le (x r : ℝ) (h0 : 0 ≤ x) (hr : x ≤ r) (hr2 : r ≤ 2) :
    1 - 2 * (r / 2 - (r / 2) ^ 3 / 6 + (r / 2) ^ 4 * (5 / 96)) ^ 2 ≤ Real.cos x := by
  have hmono : Real.cos r ≤ Real.cos x :=
    Real.cos_le_cos_of_nonneg_of_le_pi h0 (by linarith [Real.pi_gt_three]) hr
  have hbd := cos_double_ge (r / 2) (by linarith) (by linarith)
  rw [show 2 * (r / 2) = r from by ring] at hbd
  linarith

/-- On valid latitudes the source's `a` is the spec formula's `a`. -/
lemma havA_eq_spec (lat1 lon1 lat2 lon2 : ℝ) :
    havA lat1 lon1 lat2 lon2 =
      Real.sin ((lat2 * Real.pi / 180 - lat1 * Real.pi / 180) / 2) ^ 2 +
        Real.cos (lat1 * Real.pi / 180) * Real.cos (lat2 * Real.pi / 180) *
          Real.sin ((lon2 * Real.pi / 180 - lon1 * Real.pi / 180) / 2) ^ 2 := by
  unfold havA
  rw [show (lat2 - lat1) * Real.pi / 180 / 2 = (lat2 * Real.pi / 180 - lat1 * Real.pi / 180) / 2
      from by ring,
    show (lon2 - lon1) * Real.pi / 180 / 2 = (lon2 * Real.pi / 180 - lon1 * Real.pi / 180) / 2
      from by ring]
  ring

lemma calculateDistance_eq_haversineStandard (lat1 lon1 lat2 lon2 : ℝ)
    (h1 : |lat1| ≤ 90) (h2 : |lat2| ≤ 90) :
    calculateDistance lat1 lon1 lat2 lon2 = haversineStandard lat1 lon1 lat2 lon2 := by
  rw [calculateDistance_eq,
    atan2_sqrt_eq_arcsin (havA_nonneg lat1 lon1 lat2 lon2 h1 h2)
      (havA_le_one lat1 lon1 lat2 lon2 h1 h2)]
  unfold haversineStandard
  dsimp only
  rw [← havA_eq_spec]
  norm_num
  ring

lemma havA_delhi_lb :
    ((1:ℝ)/6371)^2 ≤ havA 28.6139 77.2090 28.6129 77.2295 := by
  have hpl := Real.pi_gt_d6
  have hpu := Real.pi_lt_d6
  have hpp := Real.pi_pos
  unfold havA
  rw [show ((28.6129:ℝ) - 28.6139) * Real.pi / 180 / 2 = -(Real.pi / 360000) from by ring,
    show ((77.2295:ℝ) - 77.2090) * Real.pi / 180 / 2 = Real.pi * (41 / 720000) from by ring,
    Real.sin_neg, neg_mul_neg]
  have hx1u : Real.pi / 360000 ≤ (87267/10^10 : ℝ) := by norm_num; linarith
  have hx2u : Real.pi * (41 / 720000) ≤ (1788963/10^10 : ℝ) := by norm_num; linarith
  have hs1 : (87265/10^10 : ℝ) ≤ Real.sin (Real.pi / 360000) := by
    have hgt := Real.sin_gt_sub_cube (x := Real.pi / 360000) (by positivity) (by linarith)
    have hcube : (Real.pi / 360000)^3 ≤ (87267/10^10 : ℝ)^3 :=
      pow_le_pow_left₀ (by positivity) hx1u 3
    nlinarith
  have hs2 : (1788961/10^10 : ℝ) ≤ Real.sin (Real.pi * (41 / 720000)) := by
    have hgt := Real.sin_gt_sub_cube (x := Real.pi * (41 / 720000)) (by positivity) (by linarith)
    have hcube : (Real.pi * (41 / 720000))^3 ≤ (1788963/10^10 : ℝ)^3 :=
      pow_le_pow_left₀ (by positivity) hx2u 3
    nlinarith
  have hp1u : (28.6139:ℝ) * Real.pi / 180 ≤ 4994069/10^7 := by nlinarith
  have hp2u : (28.6129:ℝ) * Real.pi / 180 ≤ 4993894/10^7 := by nlinarith
  have hp1l : (0:ℝ) ≤ 28.6139 * Real.pi / 180 := by positivity
  have hp2l : (0:ℝ) ≤ 28.6129 * Real.pi / 180 := by positivity
  have hc1 := cos_ge_of_le (28.6139 * Real.pi / 180) (4994069/10^7) hp1l hp1u (by norm_num)
  have hc2 := cos_ge_of_le (28.6129 * Real.pi / 180) (4993894/10^7) hp2l hp2u (by norm_num)
  have hc1' : (877674/10^6 : ℝ) ≤ Real.cos (28.6139 * Real.pi / 180) := by
    refine le_trans ?_ hc1
    norm_num
  have hc2' : (877682/10^6 : ℝ) ≤ Real.cos (28.6129 * Real.pi / 180) := by
    refine le_trans ?_ hc2
    norm_num
  have hS1 : (87265/10^10 : ℝ) * (87265/10^10) ≤
      Real.sin (Real.pi / 360000) * Real.sin (Real.pi / 360000) :=
    mul_le_mul hs1 hs1 (by norm_num) (le_trans (by norm_num) hs1)
  have hS2 : (1788961/10^10 : ℝ) * (1788961/10^10) ≤
      Real.sin (Real.pi * (41 / 720000)) * Real.sin (Real.pi * (41 / 720000)) :=
    mul_le_mul hs2 hs2 (by norm_num) (le_trans (by norm_num) hs2)
  have hC : (877674/10^6 : ℝ) * (877682/10^6) ≤
      Real.cos (28.6139 * Real.pi / 180) * Real.cos (28.6129 * Real.pi / 180) :=
    mul_le_mul hc1' hc2' (by norm_num) (le_trans (by norm_num) hc1')
  have hT2 : (877674/10^6 : ℝ) * (877682/10^6) * ((1788961/10^10) * (1788961/10^10)) ≤
      Real.cos (28.6139 * Real.pi / 180) * Real.cos (28.6129 * Real.pi / 180) *
        (Real.sin (Real.pi * (41 / 720000)) * Real.sin (Real.pi * (41 / 720000))) :=
    mul_le_mul hC hS2 (by norm_num) (le_trans (by norm_num) hC)
  nlinarith [hS1, hT2]

lemma havA_near_ub :
    havA 28.6139 77.2090 28.6140 77.2091 ≤ ((13:ℝ)/10^7)^2 := by
  have hpu := Real.pi_lt_d6
  have hpp := Real.pi_pos
  unfold havA
  rw [show ((28.6140:ℝ) - 28.6139) * Real.pi / 180 / 2 = Real.pi * (1 / 3600000) from by ring,
    show ((77.2091:ℝ) - 77.2090) * Real.pi / 180 / 2 = Real.pi * (1 / 3600000) from by ring]
  have hxu : Real.pi * (1 / 3600000) ≤ (88/10^8 : ℝ) := by norm_num; linarith
  have hsin : Real.sin (Real.pi * (1 / 3600000)) * Real.sin (Real.pi * (1 / 3600000)) ≤
      (88/10^8 : ℝ)^2 := by
    have h := Real.sin_sq_le_sq (x := Real.pi * (1 / 3600000))
    have hx2 : (Real.pi * (1 / 3600000))^2 ≤ (88/10^8 : ℝ)^2 :=
      pow_le_pow_left₀ (by positivity) hxu 2
    nlinarith
  have hc1n : 0 ≤ Real.cos (28.6139 * Real.pi / 180) :=
    cos_phi_nonneg (by rw [abs_le]; constructor <;> norm_num)
  have hc2n : 0 ≤ Real.cos (28.6140 * Real.pi / 180) :=
    cos_phi_nonneg (by rw [abs_le]; constructor <;> norm_num)
  have hcc : Real.cos (28.6139 * Real.pi / 180) * Real.cos (28.6140 * Real.pi / 180) ≤ 1 := by
    nlinarith [Real.cos_le_one (28.6139 * Real.pi / 180), Real.cos_le_one (28.6140 * Real.pi / 180)]
  nlinarith [mul_nonneg hc1n hc2n, hsin,
    mul_nonneg (sub_nonneg.mpr hcc) (mul_self_nonneg (Real.sin (Real.pi * (1 / 3600000))))]

lemma delhi_distance_ge :
    (2000:ℝ) ≤ calculateDistance 28.6139 77.2090 28.6129 77.2295 := by
  have h90a : |(28.6139:ℝ)| ≤ 90 := by rw [abs_le]; constructor <;> norm_num
  have h90b : |(28.6129:ℝ)| ≤ 90 := by rw [abs_le]; constructor <;> norm_num
  have h0 := havA_nonneg 28.6139 77.2090 28.6129 77.2295 h90a h90b
  have h1 := havA_le_one 28.6139 77.2090 28.6129 77.2295 h90a h90b
  rw [calculateDistance_eq, atan2_sqrt_eq_arcsin h0 h1]
  have hsq : (1/6371 : ℝ) ≤ Real.sqrt (havA 28.6139 77.2090 28.6129 77.2295) := by
    rw [Real.le_sqrt (by norm_num) h0]
    exact havA_delhi_lb
  have harc := sqrt_le_arcsin_sqrt (a := havA 28.6139 77.2090 28.6129 77.2295) h1
  nlinarith [hsq, harc]

lemma near_distance_lt :
    calculateDistance 28.6139 77.2090 28.6140 77.2091 < 500 := by
  have h90a : |(28.6139:ℝ)| ≤ 90 := by rw [abs_le]; constructor <;> norm_num
  have h90b : |(28.6140:ℝ)| ≤ 90 := by rw [abs_le]; constructor <;> norm_num
  have h0 := havA_nonneg 28.6139 77.2090 28.6140 77.2091 h90a h90b
  have hub := havA_near_ub
  have h1 : havA 28.6139 77.2090 28.6140 77.2091 < 1 := lt_of_le_of_lt hub (by norm_num)
  rw [calculateDistance_eq]
  have hle := atan2_sqrt_le (a := havA 28.6139 77.2090 28.6140 77.2091) h1
  have hsa : Real.sqrt (havA 28.6139 77.2090 28.6140 77.2091) ≤ 13/10^7 := by
    have h := Real.sqrt_le_sqrt hub
    rwa [Real.sqrt_sq (by norm_num : (0:ℝ) ≤ 13/10^7)] at h
  have hsb : (9/10 : ℝ) ≤ Real.sqrt (1 - havA 28.6139 77.2090 28.6140 77.2091) := by
    rw [Real.le_sqrt (by norm_num) (by linarith)]
    nlinarith [hub, h0]
  have hdiv : Real.sqrt (havA 28.6139 77.2090 28.6140 77.2091) /
      Real.sqrt (1 - havA 28.6139 77.2090 28.6140 77.2091) ≤ (13/10^7) / (9/10) :=
    div_le_div₀ (by norm_num) hsa (by norm_num) hsb
  nlinarith [hle, hdiv]

/-- C4.  The distance used by the location check is the standard haversine
great-circle distance with Earth radius 6 371 000 m: on valid latitudes the
source implementation coincides exactly with the spec's reference formula.
Consequently the Delhi pair `(28.6139, 77.2090)`–`(28.6129, 77.2295)` lands
in the fail/suspicious band (`≥ 2000` m) and the pair
`(28.6139, 77.2090)`–`(28.6140, 77.2091)` lands in the pass/match band
(`< 500` m). -/
theorem C4_haversine_reference :
    (∀ lat1 lon1 lat2 lon2 : ℝ, |lat1| ≤ 90 → |lat2| ≤ 90 →
      calculateDistance lat1 lon1 lat2 lon2 = haversineStandard lat1 lon1 lat2 lon2) ∧
    2000 ≤ calculateDistance 28.6139 77.2090 28.6129 77.2295 ∧
    calculateDistance 28.6139 77.2090 28.6140 77.2091 < 500 :=
  ⟨fun lat1 lon1 lat2 lon2 h1 h2 =>
      calculateDistance_eq_haversineStandard lat1 lon1 lat2 lon2 h1 h2,
    delhi_distance_ge, near_distance_lt⟩

/-- Witness for C4: the refinement equation applied at the origin. -/
theorem C4_haversine_reference_witness :
    calculateDistance 0 0 0 0 = haversineStandard 0 0 0 0 :=
  C4_haversine_reference.1 0 0 0 0 (by norm_num) (by norm_num)
